import Mathlib

/-!
Shallow embedding of `src/windhawk/engine/customization_session.cpp`
(the Windhawk in-process customization-session controller).

Pure control flow is translated into Lean functions; interactions with the
operating system (thread enumeration, waits, semaphore acquisition, the
mitigation-policy query, thread creation) are supplied by explicit
environment parameters that record what the OS reports at each step.
Loops take an explicit fuel argument; `none` means the fuel ran out
(the corresponding C++ loop would still be running).
-/

/-- Result of `CustomizationSession::MainLoopRunner::Run` (customization_session.h). -/
inductive RunResult
  | kCompleted
  | kReloadModsAndSettings
  | kError
  deriving DecidableEq, Repr

/-- The `WaitHandleId` enum local to `MainLoopRunner::Run` (lines 285-291). -/
inductive WaitHandleId
  | kSessionManagerProcess
  | kFirstThread
  | kModConfigChangeNotification
  deriving DecidableEq, Repr

/-- `WAIT_OBJECT_0` for `WaitForSingleObject` on a thread handle. -/
def WAIT_OBJECT_0 : Nat := 0

/-- `WAIT_TIMEOUT` for `WaitForSingleObject` on a thread handle. -/
def WAIT_TIMEOUT : Nat := 258

/-- One thread handle as returned by `NtGetNextThread`, with what the OS
reports about it: its thread id, the result of `WaitForSingleObject(thread, 0)`
(0 = terminated, 258 = alive, anything else = wait failure), and the exit
code `GetExitCodeThread` reports for it. -/
structure ThreadInfo where
  threadId : Nat
  waitStatus : Nat
  exitCode : Nat
  deriving DecidableEq, Repr

/-- One step of the `NtGetNextThread` walk: either the next thread handle,
the `STATUS_NO_MORE_ENTRIES` terminator, or an unexpected failure status. -/
inductive NextThreadStep
  | thread (t : ThreadInfo)
  | noMoreEntries
  | failure (status : Nat)
  deriving DecidableEq, Repr

/-- The loop of `GetFirstThreadOfCurrentProcess` (lines 30-80). `steps` is the
sequence of `NtGetNextThread` outcomes the OS produces; `seenThread` mirrors
the `thread` cursor being non-null (i.e. at least one `NtGetNextThread` call
succeeded before). Result: `none` models `std::nullopt` (the enumeration
primitive unavailable or failed), `some none` models a returned null handle
(no alive threads left), `some (some t)` models an alive thread handle. An
exhausted `steps` list cannot arise from the OS (every walk ends in
`noMoreEntries` or a failure status) and is mapped to the failure result. -/
def firstThreadWalk (currentThreadId : Nat) :
    List NextThreadStep → Bool → Option (Option ThreadInfo)
  | [], _ => none
  | step :: rest, seenThread =>
    match step with
    | NextThreadStep.noMoreEntries =>
        if seenThread then some none else none
    | NextThreadStep.failure _ => none
    | NextThreadStep.thread t =>
        if t.threadId = currentThreadId then
          firstThreadWalk currentThreadId rest true
        else if t.waitStatus = WAIT_OBJECT_0 then
          firstThreadWalk currentThreadId rest true
        else if t.waitStatus = WAIT_TIMEOUT then
          some (some t)
        else
          none

/-- Environment of one `MainLoopRunner::Run` call, indexed by the iteration
of its outer `while (true)` loop: the `NtGetNextThread` outcomes of the
thread scan, the raw `WaitForMultipleObjects` result (an index below the
wait-handle count, or any larger value for an unrecognized/failed wait,
`WAIT_OBJECT_0` being 0), and whether `WaitForSingleObject` on the session
manager process with the given millisecond timeout reports it signaled. -/
structure RunEnv where
  nextThreadSteps : Nat → List NextThreadStep
  currentThreadId : Nat
  waitResult : Nat → Nat
  managerWait : Nat → Nat → Bool

/-- The thread scan at iteration `i` of `Run` (line 271). -/
def scanAt (env : RunEnv) (i : Nat) : Option (Option ThreadInfo) :=
  firstThreadWalk env.currentThreadId (env.nextThreadSteps i) false

/-- The `waitHandleIds` array as filled by `Run` (lines 296-316): the session
manager process always, the first alive thread if one was found, the config
change notification handle if the watcher is present. -/
def waitIds (hasThread hasWatcher : Bool) : List WaitHandleId :=
  [WaitHandleId.kSessionManagerProcess]
    ++ (if hasThread then [WaitHandleId.kFirstThread] else [])
    ++ (if hasWatcher then [WaitHandleId.kModConfigChangeNotification] else [])

/-- Outcome of one iteration of `Run`'s outer loop: either the function
returns (with the result and the value written through `lastThreadExitCode`,
`none` meaning the output parameter is left untouched), or the loop
continues with an updated `lastThreadExitCodeLocal`. -/
inductive StepOutcome
  | ret (result : RunResult) (written : Option Nat)
  | again (newLocal : Nat)
  deriving DecidableEq, Repr

/-- The dispatch on the `WaitForMultipleObjects` result (lines 318-345):
an in-range index selects a `WaitHandleId`; the session manager process
completes the run, the first thread's exit captures its exit code
(`GetExitCodeThread`, line 327) and loops, the config notification waits up
to 200 ms on the manager process (line 334) and returns `kCompleted` if it
signaled, `kReloadModsAndSettings` otherwise; an out-of-range result is the
error path (line 345). -/
def runDispatch (env : RunEnv) (hasWatcher : Bool) (i : Nat)
    (hasThread : Bool) (threadExitCode : Nat) : StepOutcome :=
  match (waitIds hasThread hasWatcher).get? (env.waitResult i) with
  | some WaitHandleId.kSessionManagerProcess =>
      StepOutcome.ret RunResult.kCompleted none
  | some WaitHandleId.kFirstThread =>
      StepOutcome.again threadExitCode
  | some WaitHandleId.kModConfigChangeNotification =>
      if env.managerWait i 200 then
        StepOutcome.ret RunResult.kCompleted none
      else
        StepOutcome.ret RunResult.kReloadModsAndSettings none
  | none =>
      StepOutcome.ret RunResult.kError none

/-- One iteration of `Run`'s outer loop (lines 268-346): scan for the first
alive other thread; a null handle means no threads are left, so return
`kCompleted` writing the captured exit code (lines 275-281); otherwise build
the wait set (omitting the thread on scan failure) and dispatch on the wait
result. -/
def runStep (env : RunEnv) (hasWatcher : Bool) (i : Nat)
    (localCode : Nat) : StepOutcome :=
  match scanAt env i with
  | some none => StepOutcome.ret RunResult.kCompleted (some localCode)
  | none => runDispatch env hasWatcher i false 0
  | some (some t) => runDispatch env hasWatcher i true t.exitCode

/-- `MainLoopRunner::Run` (lines 263-347) as a fueled loop over `runStep`,
starting at iteration `i` with `lastThreadExitCodeLocal = localCode`
(initially 0, line 266). `none` means the fuel ran out while the loop was
still re-scanning. -/
def runLoop (env : RunEnv) (hasWatcher : Bool) :
    Nat → Nat → Nat → Option (RunResult × Option Nat)
  | 0, _, _ => none
  | fuel + 1, i, localCode =>
    match runStep env hasWatcher i localCode with
    | StepOutcome.ret r w => some (r, w)
    | StepOutcome.again c => runLoop env hasWatcher fuel (i + 1) c

/-- `MainLoopRunner::Run` from its entry (iteration 0, local exit code 0). -/
def run (env : RunEnv) (hasWatcher : Bool) (fuel : Nat) :
    Option (RunResult × Option Nat) :=
  runLoop env hasWatcher fuel 0 0

/-- `MainLoopRunner::ContinueMonitoring` (lines 349-363): the watcher slot
`m_modConfigChangeNotification` is `none` when absent; `rearmSucceeds` tells
whether the underlying `ContinueMonitoring` call throws. Returns the
function's boolean result and the watcher slot afterwards. -/
def continueMonitoring (watcher : Option Unit) (rearmSucceeds : Bool) :
    Bool × Option Unit :=
  match watcher with
  | none => (false, none)
  | some w =>
    if rearmSucceeds then (true, some w)
    else (false, none)

/-- `CurrentProcessHasMitigationPolicy` (lines 83-102): `procAddressFound`
is whether `GetProcessMitigationPolicy` could be located, `querySucceeded`
whether the call returned TRUE, `prohibitDynamicCode` the policy field the
OS would report. -/
def currentProcessHasMitigationPolicy
    (procAddressFound querySucceeded prohibitDynamicCode : Bool) : Bool :=
  if !procAddressFound then
    false
  else
    querySucceeded && prohibitDynamicCode

/-- Whether the scan at iteration `i` found an alive thread (i.e. whether
`firstThread` is non-null when the wait set is built, line 304). -/
def hasThreadAt (env : RunEnv) (i : Nat) : Bool :=
  match scanAt env i with
  | some (some _) => true
  | _ => false

/-- Environment in which the thread-enumeration primitive fails at every
scan (`NtGetNextThread` reports status 0xC0000001 immediately) while the
session manager process is the handle that signals (wait result index 0). -/
def enumFailEnv : RunEnv where
  nextThreadSteps := fun _ => [NextThreadStep.failure 3221225473]
  currentThreadId := 1
  waitResult := fun _ => 0
  managerWait := fun _ _ => false

/-- Environment with exactly one other alive thread (id 2, exit code 7)
at the first scan; that thread signals (wait result index 1 in the
manager+thread wait set), and the re-scan finds only the current thread
(id 1) before `STATUS_NO_MORE_ENTRIES`. -/
def soleThreadEnv : RunEnv where
  nextThreadSteps := fun i =>
    if i = 0 then
      [NextThreadStep.thread { threadId := 2, waitStatus := 258, exitCode := 7 },
       NextThreadStep.noMoreEntries]
    else
      [NextThreadStep.thread { threadId := 1, waitStatus := 258, exitCode := 0 },
       NextThreadStep.noMoreEntries]
  currentThreadId := 1
  waitResult := fun _ => 1
  managerWait := fun _ _ => false

/-- C7: for every call to `MainLoopRunner::ContinueMonitoring`: if no watcher
is present it returns false (and the slot stays absent, so the disabling is
permanent); if re-arming the watcher fails it sets the watcher absent and
returns false; otherwise the watcher remains present and it returns true.
The domain `Option Unit × Bool` is enumerated exhaustively. -/
theorem continueMonitoring_spec :
    continueMonitoring none false = (false, none) ∧
    continueMonitoring none true = (false, none) ∧
    continueMonitoring (some ()) false = (false, none) ∧
    continueMonitoring (some ()) true = (true, some ()) := by
  exact ⟨rfl, rfl, rfl, rfl⟩

/-- C9: the mitigation-policy query fails open: if the OS query function
cannot be located, or the policy query call itself fails, the guard reports
that dynamic code is permitted (returns false), whatever the policy field
would have said. The failing part of the domain is enumerated exhaustively. -/
theorem mitigationPolicy_fails_open :
    currentProcessHasMitigationPolicy false false false = false ∧
    currentProcessHasMitigationPolicy false false true = false ∧
    currentProcessHasMitigationPolicy false true false = false ∧
    currentProcessHasMitigationPolicy false true true = false ∧
    currentProcessHasMitigationPolicy true false false = false ∧
    currentProcessHasMitigationPolicy true false true = false := by
  exact ⟨rfl, rfl, rfl, rfl, rfl, rfl⟩

/-- C2: for every `Run` call in which the config-change handle signals
first (the infinite wait dispatches to `kModConfigChangeNotification`),
`Run` then waits up to 200 ms on the manager-process handle alone; if the
manager process signals within that window `Run` returns `kCompleted`,
otherwise `kReloadModsAndSettings`; either way the `lastThreadExitCode`
output parameter is not written. -/
theorem run_config_change_debounce (env : RunEnv) (i localCode fuel : Nat)
    (hscan : scanAt env i ≠ some none)
    (hfire : (waitIds (hasThreadAt env i) true).get? (env.waitResult i) =
      some WaitHandleId.kModConfigChangeNotification) :
    runLoop env true (fuel + 1) i localCode =
      some (if env.managerWait i 200 then RunResult.kCompleted
            else RunResult.kReloadModsAndSettings, none) := by
  show (match runStep env true i localCode with
    | StepOutcome.ret r w => some (r, w)
    | StepOutcome.again c => runLoop env true fuel (i + 1) c) = _
  unfold runStep
  cases hsc : scanAt env i with
  | none =>
      rw [hasThreadAt, hsc] at hfire
      simp only [runDispatch, hfire]
      cases h200 : env.managerWait i 200 <;> simp
  | some o =>
      cases o with
      | none => exact absurd hsc hscan
      | some t =>
          rw [hasThreadAt, hsc] at hfire
          simp only [runDispatch, hfire]
          cases h200 : env.managerWait i 200 <;> simp

/-- C3 counterexample: with the thread-enumeration primitive failing
(`NtGetNextThread` immediately reports status 0xC0000001, so the scan yields
`std::nullopt`) and the session manager process signaling, `Run` returns
`kCompleted` — not `kError` as the claim states. -/
theorem run_enum_failure_counterexample :
    run enumFailEnv false 1 = some (RunResult.kCompleted, none) ∧
    RunResult.kCompleted ≠ RunResult.kError := by
  exact ⟨rfl, by decide⟩

/-- C3 amended: for every `Run` iteration in which the thread-enumeration
primitive is unavailable or fails unexpectedly, `Run` does not abort: it
builds the wait set without a thread handle (manager process plus, if
present, the config-change watcher) and keeps waiting on it; the iteration
yields `kError` only if that wait itself fails (result outside the
wait-handle range), exactly as when a thread is present. -/
theorem run_enum_failure_waits_without_thread (env : RunEnv)
    (hasWatcher : Bool) (i localCode : Nat)
    (hscan : scanAt env i = none) :
    runStep env hasWatcher i localCode = runDispatch env hasWatcher i false 0 ∧
    (∀ w : Option Nat,
      env.waitResult i < (waitIds false hasWatcher).length →
        runStep env hasWatcher i localCode ≠
          StepOutcome.ret RunResult.kError w) ∧
    waitIds false hasWatcher =
      [WaitHandleId.kSessionManagerProcess]
        ++ (if hasWatcher then [WaitHandleId.kModConfigChangeNotification]
            else []) := by
  refine ⟨?_, ?_, rfl⟩
  · unfold runStep
    rw [hscan]
  · intro w hlt
    unfold runStep
    rw [hscan]
    unfold runDispatch
    cases hget : (waitIds false hasWatcher).get? (env.waitResult i) with
    | none =>
        exact absurd (List.get?_eq_none.mp hget) (Nat.not_le.mpr hlt)
    | some id =>
        have hmem : id ∈ waitIds false hasWatcher := List.get?_mem hget
        cases id with
        | kSessionManagerProcess => simp
        | kFirstThread =>
            cases hasWatcher <;> simp [waitIds] at hmem
        | kModConfigChangeNotification =>
            cases h200 : env.managerWait i 200 <;> simp

/-- C3 amended witness: at `enumFailEnv`, iteration 0, the failed scan
leads to a non-error step (the wait result 0 is in range for the
manager-only wait set). -/
theorem run_enum_failure_waits_without_thread_witness :
    runStep enumFailEnv false 0 0 ≠
      StepOutcome.ret RunResult.kError none :=
  (run_enum_failure_waits_without_thread enumFailEnv false 0 0 rfl).2.1
    none (by decide)

/-- C6: (1) for every `Run` call whose thread scan legitimately reaches the
end of the thread list and finds no living thread other than the caller
(a null handle, `some none`), `Run` returns `kCompleted` writing the last
exit code captured from previously signaled threads during this call; and
(2) when the sole other living thread signals (the wait dispatches to
`kFirstThread`) and the re-scan then finds no other living thread, `Run`
returns `kCompleted` with the captured exit code equal to that thread's
actual exit code. -/
theorem run_no_threads_completes (env : RunEnv) (hasWatcher : Bool)
    (fuel : Nat) :
    (∀ j code, scanAt env j = some none →
      runLoop env hasWatcher (fuel + 1) j code =
        some (RunResult.kCompleted, some code)) ∧
    (∀ i localCode t, scanAt env i = some (some t) →
      (waitIds true hasWatcher).get? (env.waitResult i) =
        some WaitHandleId.kFirstThread →
      scanAt env (i + 1) = some none →
      runLoop env hasWatcher (fuel + 2) i localCode =
        some (RunResult.kCompleted, some t.exitCode)) := by
  have hdone : ∀ j code fuel, scanAt env j = some none →
      runLoop env hasWatcher (fuel + 1) j code =
        some (RunResult.kCompleted, some code) := by
    intro j code fuel hscan
    show (match runStep env hasWatcher j code with
      | StepOutcome.ret r w => some (r, w)
      | StepOutcome.again c => runLoop env hasWatcher fuel (j + 1) c) = _
    unfold runStep
    rw [hscan]
  refine ⟨fun j code h => hdone j code fuel h, ?_⟩
  intro i localCode t hscan1 hfire hscan2
  show (match runStep env hasWatcher i localCode with
    | StepOutcome.ret r w => some (r, w)
    | StepOutcome.again c => runLoop env hasWatcher (fuel + 1) (i + 1) c) = _
  unfold runStep
  rw [hscan1]
  unfold runDispatch
  rw [hfire]
  exact hdone (i + 1) t.exitCode fuel hscan2

/-- C6 witness: in `soleThreadEnv`, the sole other thread (exit code 7)
signals at iteration 0 and the re-scan finds no other living thread, so
`Run` completes writing exit code 7. -/
theorem run_no_threads_completes_witness :
    runLoop soleThreadEnv false 2 0 0 =
      some (RunResult.kCompleted, some 7) :=
  (run_no_threads_completes soleThreadEnv false 0).2 0 0
    { threadId := 2, waitStatus := 258, exitCode := 7 }
    (by decide) (by decide) (by decide)

/-- C10: `Run` writes its `lastThreadExitCode` output parameter only on the
`kCompleted` path reached because no other living thread remains: a
returning step writes iff its scan found no threads left, in which case the
result is `kCompleted` and the value written is the running captured code;
consequently any completed `Run` that did write exited through a
no-threads scan, while `kReloadModsAndSettings`, `kError`, and
manager-signaled `kCompleted` returns leave the parameter untouched
(captured codes are discarded). -/
theorem run_writes_exit_code_only_when_no_threads
    (env : RunEnv) (hasWatcher : Bool) :
    (∀ i localCode r w,
      runStep env hasWatcher i localCode = StepOutcome.ret r w →
        (w ≠ none ↔
          scanAt env i = some none ∧ r = RunResult.kCompleted ∧
            w = some localCode)) ∧
    (∀ fuel i localCode res written,
      runLoop env hasWatcher fuel i localCode = some (res, written) →
        written ≠ none →
          res = RunResult.kCompleted ∧
            ∃ j, i ≤ j ∧ scanAt env j = some none) := by
  have hstep : ∀ i localCode r w,
      runStep env hasWatcher i localCode = StepOutcome.ret r w →
        (w ≠ none ↔
          scanAt env i = some none ∧ r = RunResult.kCompleted ∧
            w = some localCode) := by
    intro i localCode r w h
    have hdisp : ∀ hasThread code,
        runDispatch env hasWatcher i hasThread code = StepOutcome.ret r w →
          w = none := by
      intro hasThread code hd
      unfold runDispatch at hd
      cases hget : (waitIds hasThread hasWatcher).get? (env.waitResult i) with
      | none =>
          rw [hget] at hd
          cases hd
          rfl
      | some id =>
          rw [hget] at hd
          cases id with
          | kSessionManagerProcess => cases hd; rfl
          | kFirstThread => cases hd
          | kModConfigChangeNotification =>
              cases h200 : env.managerWait i 200 <;> rw [h200] at hd <;>
                cases hd <;> rfl
    unfold runStep at h
    cases hscan : scanAt env i with
    | none =>
        rw [hscan] at h
        have := hdisp false 0 h
        subst this
        simp [hscan]
    | some o =>
        cases o with
        | none =>
            rw [hscan] at h
            cases h
            constructor
            · intro _
              exact ⟨rfl, rfl, rfl⟩
            · intro _
              simp
        | some t =>
            rw [hscan] at h
            have := hdisp true t.exitCode h
            subst this
            simp [hscan]
  refine ⟨hstep, ?_⟩
  intro fuel
  induction fuel with
  | zero =>
      intro i localCode res written h
      cases h
  | succ n ih =>
      intro i localCode res written h hw
      rw [runLoop] at h
      cases hs : runStep env hasWatcher i localCode with
      | ret r w =>
          rw [hs] at h
          cases h
          obtain ⟨hscan, hres, -⟩ := (hstep i localCode res written hs).mp hw
          exact ⟨hres, i, le_refl i, hscan⟩
      | again c =>
          rw [hs] at h
          obtain ⟨hres, j, hij, hscan⟩ := ih (i + 1) c res written h hw
          exact ⟨hres, j, le_trans (Nat.le_succ i) hij, hscan⟩

/-- C10 witness: in `soleThreadEnv` the completed run wrote exit code 7,
and indeed the result is `kCompleted` with a no-threads scan at some later
iteration. -/
theorem run_writes_exit_code_only_when_no_threads_witness :
    RunResult.kCompleted = RunResult.kCompleted ∧
      ∃ j, 0 ≤ j ∧ scanAt soleThreadEnv j = some none :=
  (run_writes_exit_code_only_when_no_threads soleThreadEnv false).2
    2 0 0 RunResult.kCompleted (some 7) (by decide) (by decide)

/-- Sleep-time update of `DeleteThis` (lines 583-586): `sleepTime *= 2`,
then capped at 60000 ms. -/
def nextSleepTime (s : Nat) : Nat :=
  if 2 * s > 60000 then 60000 else 2 * s

/-- The duration of the n-th sleep of the backoff, starting at 1000 ms
(line 575). -/
def sleepSeq : Nat → Nat
  | 0 => 1000
  | n + 1 => nextSleepTime (sleepSeq n)

/-- Observable actions of `CustomizationSession::DeleteThis`: a poll of
`CurrentProcessHasMitigationPolicy` with the value it reported, a `Sleep`
call with its duration in milliseconds, and the reset of the singleton slot
(`GetInstance().reset()`, line 594), which destroys the session. -/
inductive TeardownEvent
  | pollMitigation (active : Bool)
  | sleepCall (ms : Nat)
  | resetInstance
  deriving DecidableEq, Repr

/-- The wait loop of `DeleteThis` (lines 575-587) followed by the singleton
reset (line 594): `policy k` is what the k-th mitigation poll reports.
Starting at poll index `k` with the current `sleepTime`, each iteration
polls; while the policy is active it sleeps `sleepTime` and doubles it
(capped); once a poll reports the policy cleared, the loop exits and the
singleton slot is reset. `none` means the fuel ran out with the policy
still active. -/
def deleteThisLoop (policy : Nat → Bool) :
    Nat → Nat → Nat → Option (List TeardownEvent)
  | 0, _, _ => none
  | fuel + 1, k, sleepTime =>
    if policy k then
      (deleteThisLoop policy fuel (k + 1) (nextSleepTime sleepTime)).map
        (fun rest => TeardownEvent.pollMitigation true ::
          TeardownEvent.sleepCall sleepTime :: rest)
    else
      some [TeardownEvent.pollMitigation false, TeardownEvent.resetInstance]

/-- `CustomizationSession::DeleteThis` (lines 565-595), from its entry:
poll index 0, initial sleep time 1000 ms. -/
def deleteThis (policy : Nat → Bool) (fuel : Nat) :
    Option (List TeardownEvent) :=
  deleteThisLoop policy fuel 0 1000

theorem sleepSeq_closed_form (n : Nat) :
    sleepSeq n = min (1000 * 2 ^ n) 60000 := by
  induction n with
  | zero => decide
  | succ m ih =>
      have ha : 1 ≤ 2 ^ m := Nat.one_le_two_pow
      rw [sleepSeq, ih, nextSleepTime, pow_succ]
      generalize 2 ^ m = a at ha ⊢
      split <;> omega

theorem sleepSeq_iterate (j : Nat) : nextSleepTime^[j] 1000 = sleepSeq j := by
  induction j with
  | zero => rfl
  | succ m ih => rw [Function.iterate_succ_apply', ih, sleepSeq]

theorem deleteThisLoop_eq (policy : Nat → Bool) :
    ∀ (n fuel k s : Nat),
      (∀ j, j < n → policy (k + j) = true) → policy (k + n) = false →
        n < fuel →
        deleteThisLoop policy fuel k s =
          some ((List.range n).flatMap (fun j =>
              [TeardownEvent.pollMitigation true,
               TeardownEvent.sleepCall (nextSleepTime^[j] s)]) ++
            [TeardownEvent.pollMitigation false,
             TeardownEvent.resetInstance]) := by
  intro n
  induction n with
  | zero =>
      intro fuel k s _ hclear hfuel
      obtain ⟨f, rfl⟩ : ∃ f, fuel = f + 1 := ⟨fuel - 1, by omega⟩
      rw [deleteThisLoop]
      simp only [Nat.add_zero] at hclear
      simp [hclear]
  | succ m ih =>
      intro fuel k s hactive hclear hfuel
      obtain ⟨f, rfl⟩ : ∃ f, fuel = f + 1 := ⟨fuel - 1, by omega⟩
      rw [deleteThisLoop]
      have hk : policy k = true := by
        have h0 := hactive 0 (Nat.succ_pos m)
        simpa using h0
      rw [hk]
      have hactive' : ∀ j, j < m → policy (k + 1 + j) = true := by
        intro j hj
        have hj1 := hactive (j + 1) (by omega)
        have : k + 1 + j = k + (j + 1) := by omega
        rw [this]
        exact hj1
      have hclear' : policy (k + 1 + m) = false := by
        have : k + 1 + m = k + (m + 1) := by omega
        rw [this]
        exact hclear
      rw [if_pos rfl, ih f (k + 1) (nextSleepTime s) hactive' hclear' (by omega),
        Option.map_some']
      congr 1
      rw [List.range_succ_eq_map, List.flatMap_cons,
        List.flatMap_map Nat.succ _ (List.range m)]
      simp only [Function.iterate_zero_apply, Function.comp_def,
        Function.iterate_succ_apply, List.append_assoc]
      rfl

/-- C4: while the mitigation policy is reported active, `DeleteThis`
re-polls the policy before each sleep and sleeps `sleepSeq 0, sleepSeq 1, …`
milliseconds, where `sleepSeq j = min (1000 * 2 ^ j) 60000` — i.e. 1 s, 2 s,
4 s, 8 s, 16 s, 32 s, 60 s, 60 s, … (each sleep double the previous, capped
at 60 s) — and the singleton slot is reset (destroying the session) only
after a poll reports the policy cleared: the reset is the final event,
immediately after the first clear poll. -/
theorem deleteThis_backoff (policy : Nat → Bool) (n fuel : Nat)
    (hactive : ∀ j, j < n → policy j = true)
    (hclear : policy n = false) (hfuel : n < fuel) :
    deleteThis policy fuel =
      some ((List.range n).flatMap (fun j =>
          [TeardownEvent.pollMitigation true,
           TeardownEvent.sleepCall (sleepSeq j)]) ++
        [TeardownEvent.pollMitigation false,
         TeardownEvent.resetInstance]) ∧
    (∀ j, sleepSeq j = min (1000 * 2 ^ j) 60000) := by
  constructor
  · have hfun : (fun j => [TeardownEvent.pollMitigation true,
        TeardownEvent.sleepCall (nextSleepTime^[j] 1000)]) =
          (fun j => [TeardownEvent.pollMitigation true,
            TeardownEvent.sleepCall (sleepSeq j)]) := by
      funext j
      rw [sleepSeq_iterate]
    have h := deleteThisLoop_eq policy n fuel 0 1000
      (by intro j hj; simpa using hactive j hj) (by simpa using hclear) hfuel
    rw [deleteThis, h, hfun]
  · exact sleepSeq_closed_form

/-- C4 witness: with the policy active for polls 0-6 and cleared at poll 7,
`DeleteThis` sleeps 1000, 2000, 4000, 8000, 16000, 32000, 60000 ms, then
polls clear and resets the singleton. -/
theorem deleteThis_backoff_witness :
    deleteThis (fun k => decide (k < 7)) 8 =
      some [TeardownEvent.pollMitigation true, TeardownEvent.sleepCall 1000,
            TeardownEvent.pollMitigation true, TeardownEvent.sleepCall 2000,
            TeardownEvent.pollMitigation true, TeardownEvent.sleepCall 4000,
            TeardownEvent.pollMitigation true, TeardownEvent.sleepCall 8000,
            TeardownEvent.pollMitigation true, TeardownEvent.sleepCall 16000,
            TeardownEvent.pollMitigation true, TeardownEvent.sleepCall 32000,
            TeardownEvent.pollMitigation true, TeardownEvent.sleepCall 60000,
            TeardownEvent.pollMitigation false,
            TeardownEvent.resetInstance] ∧
    sleepSeq 7 = 60000 := by
  have h := deleteThis_backoff (fun k => decide (k < 7)) 7 8
    (fun j hj => decide_eq_true hj) (by decide) (by decide)
  exact ⟨h.1.trans (by decide), (h.2 7).trans (by decide)⟩

/-- Observable actions of `CustomizationSession::RunMainLoop`: a `Run` call
with its result, a `ContinueMonitoring` call on the runner (its return value
is ignored there, line 549), and a `ReloadModsAndSettings` call on the mods
manager. -/
inductive LoopEvent
  | runCall (r : RunResult)
  | continueMonitoringCall
  | reloadModsAndSettingsCall
  deriving DecidableEq, Repr

/-- `CustomizationSession::RunMainLoop` (lines 541-563) as a trace of its
observable actions: `runRes i` is the result of the i-th `Run` call and
`mitig i` what the i-th `CurrentProcessHasMitigationPolicy` check reports.
Each iteration runs the runner; a result other than
`kReloadModsAndSettings` ends the loop; otherwise `ContinueMonitoring` is
called, then — only if the mitigation check reports no prohibition —
`ReloadModsAndSettings` (whose failure is caught and logged, lines
554-558), and the loop repeats. `none` means the fuel ran out. -/
def runMainLoopTrace (runRes : Nat → RunResult) (mitig : Nat → Bool) :
    Nat → Nat → Option (List LoopEvent)
  | 0, _ => none
  | fuel + 1, i =>
    if runRes i = RunResult.kReloadModsAndSettings then
      (runMainLoopTrace runRes mitig fuel (i + 1)).map (fun rest =>
        LoopEvent.runCall (runRes i) :: LoopEvent.continueMonitoringCall ::
          ((if mitig i then [] else [LoopEvent.reloadModsAndSettingsCall])
            ++ rest))
    else
      some [LoopEvent.runCall (runRes i)]

theorem runMainLoopTrace_eq (runRes : Nat → RunResult) (mitig : Nat → Bool) :
    ∀ (n fuel i : Nat),
      (∀ j, j < n → runRes (i + j) = RunResult.kReloadModsAndSettings) →
      runRes (i + n) ≠ RunResult.kReloadModsAndSettings → n < fuel →
        runMainLoopTrace runRes mitig fuel i =
          some ((List.range n).flatMap (fun j =>
              [LoopEvent.runCall RunResult.kReloadModsAndSettings,
               LoopEvent.continueMonitoringCall] ++
              (if mitig (i + j) then []
               else [LoopEvent.reloadModsAndSettingsCall])) ++
            [LoopEvent.runCall (runRes (i + n))]) := by
  intro n
  induction n with
  | zero =>
      intro fuel i _ hend hfuel
      obtain ⟨f, rfl⟩ : ∃ f, fuel = f + 1 := ⟨fuel - 1, by omega⟩
      rw [runMainLoopTrace]
      simp only [Nat.add_zero] at hend
      simp [hend]
  | succ m ih =>
      intro fuel i hrel hend hfuel
      obtain ⟨f, rfl⟩ : ∃ f, fuel = f + 1 := ⟨fuel - 1, by omega⟩
      rw [runMainLoopTrace]
      have h0 : runRes i = RunResult.kReloadModsAndSettings := by
        have := hrel 0 (Nat.succ_pos m)
        simpa using this
      have hrel' : ∀ j, j < m →
          runRes (i + 1 + j) = RunResult.kReloadModsAndSettings := by
        intro j hj
        have hj1 := hrel (j + 1) (by omega)
        have : i + 1 + j = i + (j + 1) := by omega
        rw [this]
        exact hj1
      have hend' : runRes (i + 1 + m) ≠ RunResult.kReloadModsAndSettings := by
        have : i + 1 + m = i + (m + 1) := by omega
        rw [this]
        exact hend
      rw [if_pos h0, ih f (i + 1) hrel' hend' (by omega), Option.map_some']
      rw [List.range_succ_eq_map, List.flatMap_cons,
        List.flatMap_map Nat.succ _ (List.range m), h0]
      have hfun : (fun a : Nat =>
          [LoopEvent.runCall RunResult.kReloadModsAndSettings,
           LoopEvent.continueMonitoringCall] ++
            (if mitig (i + Nat.succ a) then []
             else [LoopEvent.reloadModsAndSettingsCall])) =
          (fun a : Nat =>
          [LoopEvent.runCall RunResult.kReloadModsAndSettings,
           LoopEvent.continueMonitoringCall] ++
            (if mitig (i + 1 + a) then []
             else [LoopEvent.reloadModsAndSettingsCall])) := by
        funext a
        have harg : i + Nat.succ a = i + 1 + a := by omega
        rw [harg]
      rw [hfun]
      have him : i + (m + 1) = i + 1 + m := by omega
      rw [him]
      simp only [Nat.add_zero, List.append_assoc, List.cons_append,
        List.nil_append]

/-- C5: in `RunMainLoop`, every `Run` outcome of `kReloadModsAndSettings`
is followed by exactly one `ContinueMonitoring` call and by exactly one
`ReloadModsAndSettings` call to the mods manager if and only if the
mitigation policy check permits it (reports no prohibition); when the
policy prohibits it there is no reload call but the monitoring call still
happens and the loop keeps running (the per-iteration segments repeat until
a non-reload result ends the loop). The second conjunct makes the exact
counts of each cycle segment explicit. -/
theorem runMainLoop_reload_discipline (runRes : Nat → RunResult)
    (mitig : Nat → Bool) (n fuel : Nat)
    (hrel : ∀ j, j < n → runRes j = RunResult.kReloadModsAndSettings)
    (hend : runRes n ≠ RunResult.kReloadModsAndSettings) (hfuel : n < fuel) :
    runMainLoopTrace runRes mitig fuel 0 =
      some ((List.range n).flatMap (fun j =>
          [LoopEvent.runCall RunResult.kReloadModsAndSettings,
           LoopEvent.continueMonitoringCall] ++
          (if mitig j then [] else [LoopEvent.reloadModsAndSettingsCall])) ++
        [LoopEvent.runCall (runRes n)]) ∧
    (∀ j,
      ([LoopEvent.runCall RunResult.kReloadModsAndSettings,
        LoopEvent.continueMonitoringCall] ++
       (if mitig j then [] else [LoopEvent.reloadModsAndSettingsCall])).count
          LoopEvent.continueMonitoringCall = 1 ∧
      ([LoopEvent.runCall RunResult.kReloadModsAndSettings,
        LoopEvent.continueMonitoringCall] ++
       (if mitig j then [] else [LoopEvent.reloadModsAndSettingsCall])).count
          LoopEvent.reloadModsAndSettingsCall =
            (if mitig j then 0 else 1)) := by
  constructor
  · have h := runMainLoopTrace_eq runRes mitig n fuel 0
      (by intro j hj; simpa using hrel j hj) (by simpa using hend) hfuel
    simpa using h
  · intro j
    cases hm : mitig j <;> simp [hm]

/-- C5 witness: two reload cycles followed by a completed run; the
mitigation policy permits the first reload and prohibits the second, so the
first cycle has a reload call and the second has none but still re-arms
monitoring before the loop continues. -/
theorem runMainLoop_reload_discipline_witness :
    runMainLoopTrace
        (fun i => if i < 2 then RunResult.kReloadModsAndSettings
          else RunResult.kCompleted)
        (fun i => decide (i = 1)) 3 0 =
      some [LoopEvent.runCall RunResult.kReloadModsAndSettings,
            LoopEvent.continueMonitoringCall,
            LoopEvent.reloadModsAndSettingsCall,
            LoopEvent.runCall RunResult.kReloadModsAndSettings,
            LoopEvent.continueMonitoringCall,
            LoopEvent.runCall RunResult.kCompleted] := by
  have h := (runMainLoop_reload_discipline
    (fun i => if i < 2 then RunResult.kReloadModsAndSettings
      else RunResult.kCompleted)
    (fun i => decide (i = 1)) 2 3
    (fun j hj => by simp [hj])
    (by decide) (by decide)).1
  exact h.trans (by decide)

/-- The `INFINITE` timeout constant (0xFFFFFFFF). -/
def INFINITE : Nat := 4294967295

/-- The fields of a constructed `CustomizationSession` relevant to the
singleton slot; `m_threadAttachExempt` is stored at construction
(line 179). -/
structure Session where
  threadAttachExempt : Bool
  deriving DecidableEq, Repr

/-- The two exceptions `CustomizationSession::Start` can throw: the
`std::runtime_error` for semaphore-acquisition failure (line 124) and the
distinct `std::logic_error` for an already-occupied singleton slot
(line 130). -/
inductive StartError
  | semaphoreAcquireFailed
  | sessionAlreadyExists
  deriving DecidableEq, Repr

/-- Initial count of the named session semaphore (line 114). -/
def sessionSemaphoreInitialCount : Nat := 1

/-- Maximum count of the named session semaphore (line 114): capacity 1. -/
def sessionSemaphoreMaximumCount : Nat := 1

/-- The semaphore-acquisition timeout chosen by `Start` (line 120): zero
when running from APC, `INFINITE` otherwise. -/
def startTimeout (runningFromAPC : Bool) : Nat :=
  if runningFromAPC then 0 else INFINITE

/-- The gate portion of `CustomizationSession::Start` (lines 107-135):
acquire the capacity-1 named semaphore with the context-dependent timeout
(`acquire t` tells whether acquisition with timeout `t` succeeds); on
failure throw the runtime error; then check the singleton slot
(`GetInstance()`); if occupied throw the logic error; otherwise emplace the
new session. The returned pair is the thrown error (or unit on success)
together with the singleton slot afterwards. -/
def startGate (acquire : Nat → Bool) (slot : Option Session)
    (runningFromAPC threadAttachExempt : Bool) :
    Except StartError Unit × Option Session :=
  if acquire (startTimeout runningFromAPC) then
    match slot with
    | some s => (Except.error StartError.sessionAlreadyExists, some s)
    | none =>
        (Except.ok (), some { threadAttachExempt := threadAttachExempt })
  else
    (Except.error StartError.semaphoreAcquireFailed, slot)

/-- C1: `Start` acquires the capacity-1 session semaphore with timeout zero
when running from APC and `INFINITE` otherwise; if acquisition fails it
throws the runtime error without touching the existing singleton slot; if
the slot is already occupied after acquisition it throws the distinct
logic error, again leaving the existing session unchanged. -/
theorem start_singleton_gate (acquire : Nat → Bool) (slot : Option Session)
    (apc tae : Bool) :
    (startTimeout true = 0 ∧ startTimeout false = INFINITE) ∧
    (sessionSemaphoreInitialCount = 1 ∧ sessionSemaphoreMaximumCount = 1) ∧
    (acquire (startTimeout apc) = false →
      startGate acquire slot apc tae =
        (Except.error StartError.semaphoreAcquireFailed, slot)) ∧
    (∀ s, acquire (startTimeout apc) = true → slot = some s →
      startGate acquire slot apc tae =
        (Except.error StartError.sessionAlreadyExists, some s)) ∧
    StartError.semaphoreAcquireFailed ≠ StartError.sessionAlreadyExists := by
  refine ⟨⟨rfl, rfl⟩, ⟨rfl, rfl⟩, ?_, ?_, by decide⟩
  · intro hacq
    simp [startGate, hacq]
  · intro s hacq hslot
    simp [startGate, hacq, hslot]

/-- C1 witness: with acquisition failing, `Start` throws the runtime error
and the occupied slot is unchanged; with acquisition succeeding against an
occupied slot, it throws the logic error and the slot is unchanged. -/
theorem start_singleton_gate_witness :
    startGate (fun _ => false) (some { threadAttachExempt := true })
        true false =
      (Except.error StartError.semaphoreAcquireFailed,
        some { threadAttachExempt := true }) ∧
    startGate (fun _ => true) (some { threadAttachExempt := true })
        false true =
      (Except.error StartError.sessionAlreadyExists,
        some { threadAttachExempt := true }) :=
  ⟨(start_singleton_gate (fun _ => false)
      (some { threadAttachExempt := true }) true false).2.2.1 rfl,
   (start_singleton_gate (fun _ => true)
      (some { threadAttachExempt := true }) false true).2.2.2.1
      { threadAttachExempt := true } rfl rfl⟩

/-- Observable actions of the session controller's thread-handoff code:
emplacing/resetting the `m_mainLoopRunner` slot, the
`CanRunAcrossThreads` check, a `Run` call, pinning the hosting module's
reference count (`GetModuleHandleEx`, lines 423-425 and 524-526), the
`MyCreateRemoteThread` attempt with its outcome, releasing the pin
(`FreeLibrary`, lines 463 and 533), a `DeleteThis` call, and naming the
created thread (`SetThreadDescriptionIfAvailable`). -/
inductive HandoffEvent
  | runnerEmplace
  | canRunAcrossThreadsCheck (result : Bool)
  | runnerReset
  | runCall (r : RunResult)
  | pinModule
  | createThread (succeeded : Bool)
  | releaseModulePin
  | deleteThisCall
  | setThreadDescription
  deriving DecidableEq, Repr

/-- The APC branch of `CustomizationSession::StartInitialized`
(lines 416-470), as the sequence of operations performed on the calling
thread: emplace the runner, discard it if it cannot run across threads,
pin the module, attempt to create the attach-exempt thread; on failure
release the module pin and run `DeleteThis` synchronously (lines 461-466);
on success name the new thread (whose own work runs elsewhere). -/
def startInitializedAPC (canCross threadOk : Bool) : List HandoffEvent :=
  [HandoffEvent.runnerEmplace,
   HandoffEvent.canRunAcrossThreadsCheck canCross]
    ++ (if canCross then [] else [HandoffEvent.runnerReset])
    ++ [HandoffEvent.pinModule, HandoffEvent.createThread threadOk]
    ++ (if threadOk then [HandoffEvent.setThreadDescription]
        else [HandoffEvent.releaseModulePin, HandoffEvent.deleteThisCall])

/-- `CustomizationSession::RunMainLoopAndDeleteThisWithThreadRecreate`
(lines 472-539), as the sequence of operations performed on the calling
thread: one `Run` call (whose result selects which routine the recreated
thread will execute), discard of the runner if it cannot run across
threads, module pin, and the thread-creation attempt; on failure release
the module pin and run `DeleteThis` synchronously (lines 530-535); on
success name the new thread. -/
def runMainLoopAndDeleteThisWithThreadRecreate
    (runResult : RunResult) (canCross threadOk : Bool) : List HandoffEvent :=
  [HandoffEvent.runCall runResult,
   HandoffEvent.canRunAcrossThreadsCheck canCross]
    ++ (if canCross then [] else [HandoffEvent.runnerReset])
    ++ [HandoffEvent.pinModule, HandoffEvent.createThread threadOk]
    ++ (if threadOk then [HandoffEvent.setThreadDescription]
        else [HandoffEvent.releaseModulePin, HandoffEvent.deleteThisCall])

/-- C8: at both handoff points (the APC-path initial thread spawn in
`StartInitialized` and the post-first-cycle thread recreate), if creating
the new thread fails the controller releases the pinned module reference
and then performs teardown (`DeleteThis`) synchronously on the current
thread — the trace ends with exactly that pair — so thread-creation
failure never leaves the session without a teardown; when creation
succeeds, no synchronous teardown happens on the current thread (it is
deferred to the new thread). -/
theorem handoff_thread_failure_teardown (canCross : Bool) (r : RunResult) :
    ([HandoffEvent.releaseModulePin, HandoffEvent.deleteThisCall] <:+
      startInitializedAPC canCross false) ∧
    ([HandoffEvent.releaseModulePin, HandoffEvent.deleteThisCall] <:+
      runMainLoopAndDeleteThisWithThreadRecreate r canCross false) ∧
    HandoffEvent.deleteThisCall ∉ startInitializedAPC canCross true ∧
    HandoffEvent.deleteThisCall ∉
      runMainLoopAndDeleteThisWithThreadRecreate r canCross true := by
  cases canCross <;> cases r <;>
    exact ⟨⟨_, rfl⟩, ⟨_, rfl⟩, by decide, by decide⟩

/-- Environment with one alive other thread (so the wait set is manager,
thread, config watcher), in which the config-change handle is the one that
signals (wait result index 2) and the manager process then signals within
the 200 ms debounce window. -/
def configFireEnv : RunEnv where
  nextThreadSteps := fun _ =>
    [NextThreadStep.thread { threadId := 2, waitStatus := 258, exitCode := 0 },
     NextThreadStep.noMoreEntries]
  currentThreadId := 1
  waitResult := fun _ => 2
  managerWait := fun _ _ => true

/-- C2 witness: in `configFireEnv` the config-change handle fires and the
manager process signals within the 200 ms window, so `Run` returns
`kCompleted` without writing the output parameter. -/
theorem run_config_change_debounce_witness :
    runLoop configFireEnv true 1 0 0 =
      some (RunResult.kCompleted, none) :=
  (run_config_change_debounce configFireEnv 0 0 0
    (by decide) (by decide)).trans (by decide)

/-- C8 witness: at the APC-path handoff with thread creation failing, the
trace ends with releasing the module pin followed by the synchronous
`DeleteThis`. -/
theorem handoff_thread_failure_teardown_witness :
    [HandoffEvent.releaseModulePin, HandoffEvent.deleteThisCall] <:+
      startInitializedAPC true false :=
  (handoff_thread_failure_teardown true RunResult.kCompleted).1
